import Mathlib

/-
  Verification development for the book-uploader repository.

  The definitions below are a shallow embedding of the Python sources:
    src/main.py              (analyze_products, validate_and_clean_product_data,
                              new_stock_import, update_stock_and_price,
                              sanitize_category_name, get_or_create_category)
    src/cache_handler.py     (load_cache)
    src/xml_handler.py       (safe_decode)
    src/gui.py               (WooCommerceImporterGUI.process)

  Python exceptions are modelled with Except; an XML child element is
  Option (Option String): the outer layer is element presence
  (book.find(tag) returning None when absent) and the inner layer is the
  element text (element.text, which may be None).
-/

/-- The Python exception kinds the embedded code can raise. -/
inductive PyError where
  | attributeError
  | valueError
  | typeError
  | indexError
  | keyError
deriving Repr, DecidableEq

/-- A failure of a remote WooCommerce call (any exception raised by the
    API wrapper in src/woocommerce_handler.py, re-raised to the caller). -/
inductive GatewayError where
  | gatewayError
deriving Repr, DecidableEq

/-- src/xml_handler.py, safe_decode: None becomes the empty string; any
    other text survives the utf-8 encode/decode round trip with errors
    ignored, which is the identity on text already held as a string. -/
def safe_decode (text : Option String) : String :=
  match text with
  | none => ""
  | some s => s

/-- Models the expression element.text after book.find(tag): when the
    element is absent, Python raises AttributeError on the .text access. -/
def findText (elem : Option (Option String)) : Except PyError (Option String) :=
  match elem with
  | none => Except.error PyError.attributeError
  | some t => Except.ok t

/-- The ASCII whitespace characters Python str.strip removes. -/
def isSpaceChar (c : Char) : Bool :=
  c = (' ') || c = ('\t') || c = ('\n') || c = ('\r') || c = (Char.ofNat 11) || c = (Char.ofNat 12)

/-- Drop leading whitespace from a character list. -/
def trimLeftChars : List Char → List Char
  | [] => []
  | c :: cs => if isSpaceChar c then trimLeftChars cs else c :: cs

/-- Python s.strip(): drop leading and trailing whitespace. -/
def pyTrim (s : String) : String :=
  ⟨(trimLeftChars (trimLeftChars s.data).reverse).reverse⟩

/-- Python s.split(sep) for a one-character separator: every occurrence
    of the separator splits, empty parts are kept. -/
def splitChars (sep : Char) : List Char → List (List Char)
  | [] => [[]]
  | c :: cs =>
      let r := splitChars sep cs
      if c = sep then [] :: r
      else
        match r with
        | [] => [[c]]
        | g :: gs => (c :: g) :: gs

/-- Python s.split(sep) for a one-character separator, on strings. -/
def pySplit (sep : Char) (s : String) : List String :=
  (splitChars sep s.data).map (fun g => (⟨g⟩ : String))

/-- Python s.replace(old, new) for a one-character old value. -/
def replaceChars (old : Char) (new : List Char) : List Char → List Char
  | [] => []
  | c :: cs =>
      if c = old then new ++ replaceChars old new cs else c :: replaceChars old new cs

/-- Python s.lower() (ASCII case folding). -/
def pyLower (s : String) : String :=
  ⟨s.data.map Char.toLower⟩

/-- Python s.startswith(c) for a one-character prefix. -/
def pyStartsWith (c : Char) (s : String) : Bool :=
  match s.data with
  | [] => false
  | d :: _ => d = c

/-- Python int(s) on a string: optional surrounding whitespace, an
    optional sign, then at least one decimal digit; anything else raises
    ValueError (modelled as none). -/
def pyInt (s : String) : Option Int :=
  let t := pyTrim s
  let core : String :=
    if pyStartsWith ('-') t || pyStartsWith ('+') t then ⟨t.data.drop 1⟩ else t
  if !core.data.isEmpty && core.data.all (fun c => 48 ≤ c.toNat && c.toNat ≤ 57) then
    let n : Nat := core.data.foldl (fun acc c => acc * 10 + (c.toNat - 48)) 0
    if pyStartsWith ('-') t then some (-(n : Int)) else some (n : Int)
  else
    none

/-- Python str(v) on an attribute option that is either a string or None. -/
def pyStr (v : Option String) : String :=
  match v with
  | none => "None"
  | some s => s

/-- One book element of the feed, as accessed by src/main.py: each field
    is one child element looked up with book.find(tag). -/
structure Book where
  isbn : Option (Option String)
  title : Option (Option String)
  price : Option (Option String)
  stock : Option (Option String)
  longdesc : Option (Option String)
  content : Option (Option String)
  multicat : Option (Option String)
  thumbnailL : Option (Option String)
  author : Option (Option String)
  publisher : Option (Option String)
  cover : Option (Option String)
  pages : Option (Option String)
  lang : Option (Option String)
  dimensions : Option (Option String)
  weight : Option (Option String)
  pub_date : Option (Option String)
  subject : Option (Option String)
deriving Repr, DecidableEq

/-- The preset fields from presets.json, copied verbatim onto every new
    product (src/main.py lines 157-162). -/
structure Presets where
  tax_status : String
  tax_class : String
  manage_stock : Bool
  stock_status : String
  shipping_class : String
  backorders : String
deriving Repr, DecidableEq

/-- One attribute entry of the product dict before cleaning: a name and
    a list of option values, each a string or None. -/
structure RawAttr where
  name : String
  options : List (Option String)
deriving Repr, DecidableEq

/-- One image entry: a src URL that may be None. -/
structure Image where
  src : Option String
deriving Repr, DecidableEq

/-- The dynamic value held in the stock_quantity entry of the product
    dict: the pipeline stores an int, but the cleaning function also
    accepts strings and None (int() raises ValueError or TypeError on
    parse failure, both caught in validate_and_clean_product_data). -/
inductive PyVal where
  | vInt (n : Int)
  | vStr (s : String)
  | vNone
deriving Repr, DecidableEq

/-- Python int(v) over the dynamic stock value. -/
def intOfPyVal : PyVal → Except PyError Int
  | PyVal.vInt n => Except.ok n
  | PyVal.vStr s =>
      match pyInt s with
      | some n => Except.ok n
      | none => Except.error PyError.valueError
  | PyVal.vNone => Except.error PyError.typeError

/-- The product dict handed to validate_and_clean_product_data
    (src/main.py lines 135-163). The dimensions entry is an optional
    top-level key holding a raw dimensions string; the new-stock pipeline
    never sets it (dimensions only appear inside an attribute there). -/
structure ProductData where
  name : String
  sku : String
  regular_price : String
  stock_quantity : PyVal
  description : Option String
  short_description : String
  categories : List Nat
  images : List Image
  attributes : List RawAttr
  tags : List String
  dimensions : Option String
  tax_status : String
  tax_class : String
  manage_stock : Bool
  stock_status : String
  shipping_class : String
  backorders : String
deriving Repr, DecidableEq

/-- An attribute after cleaning: every option stringified. -/
structure CleanAttr where
  name : String
  options : List String
deriving Repr, DecidableEq

/-- The dimensions entry after cleaning: the key may be absent (input had
    no dimensions key), an empty dict (split did not yield three parts),
    or a fully populated length/width/height dict. -/
inductive DimsOut where
  | absent
  | emptyDict
  | dims (length width height : String)
deriving Repr, DecidableEq

/-- The product dict after validate_and_clean_product_data. -/
structure CleanedProduct where
  name : String
  sku : String
  regular_price : String
  stock_quantity : Int
  description : String
  short_description : String
  categories : List Nat
  images : List Image
  attributes : List CleanAttr
  tags : List String
  dimensions : DimsOut
  tax_status : String
  tax_class : String
  manage_stock : Bool
  stock_status : String
  shipping_class : String
  backorders : String
deriving Repr, DecidableEq

/-- src/main.py line 66: the list comprehension
    [attr for attr in attrs if attr.options[0] is not None]
    evaluates attr.options[0] for every attribute, raising IndexError on
    an empty options list, and keeps the attributes whose first option is
    not None. -/
def filterAttrs : List RawAttr → Except PyError (List RawAttr)
  | [] => Except.ok []
  | a :: rest =>
      match a.options with
      | [] => Except.error PyError.indexError
      | o :: _ =>
          match filterAttrs rest with
          | Except.error e => Except.error e
          | Except.ok rest1 =>
              if o.isSome then Except.ok (a :: rest1) else Except.ok rest1

/-- src/main.py lines 64-102, validate_and_clean_product_data. -/
def validate_and_clean_product_data (p : ProductData) : Except PyError CleanedProduct :=
  match filterAttrs p.attributes with
  | Except.error e => Except.error e
  | Except.ok kept =>
      Except.ok {
        name := p.name
        sku := p.sku
        attributes := kept.map (fun a => { name := a.name, options := a.options.map pyStr }),
        regular_price := if p.regular_price.data.isEmpty then "0" else p.regular_price
        stock_quantity :=
          match intOfPyVal p.stock_quantity with
          | Except.ok n => n
          | Except.error _ => 0
        images :=
          match p.images with
          | [] => []
          | img :: rest => if img.src.isNone then [] else img :: rest
        description := p.description.getD ""
        short_description := p.short_description
        categories := p.categories
        tags := p.tags
        dimensions :=
          match p.dimensions with
          | none => DimsOut.absent
          | some ds =>
              match pySplit ('x') ds with
              | [a, b, c] => DimsOut.dims (pyTrim a) (pyTrim b) (pyTrim c)
              | _ => DimsOut.emptyDict
        tax_status := p.tax_status
        tax_class := p.tax_class
        manage_stock := p.manage_stock
        stock_status := p.stock_status
        shipping_class := p.shipping_class
        backorders := p.backorders
      }

/-- src/main.py line 140: the stock entry of the new product dict,
    int(safe_decode(book.find(stock).text)) when the stock element is
    present, 0 when it is absent; int() raises ValueError on a
    non-numeric text. -/
def stockOf (b : Book) : Except PyError Int :=
  match b.stock with
  | none => Except.ok 0
  | some t =>
      match pyInt (safe_decode t) with
      | some n => Except.ok n
      | none => Except.error PyError.valueError

/-- src/main.py lines 124-163: the new product dict built for one feed
    record (the category ids have already been resolved by the loop at
    lines 127-133 and are passed in). Every child element read without a
    presence guard (isbn, title, price, author, publisher, cover, pages,
    lang, dimensions, weight, pub_date) raises AttributeError when
    absent; the reads happen in source order. -/
def buildRawProduct (pr : Presets) (cats : List Nat) (b : Book) : Except PyError ProductData :=
  match findText b.isbn with
  | Except.error e => Except.error e
  | Except.ok isbnText =>
  match findText b.title with
  | Except.error e => Except.error e
  | Except.ok titleText =>
  match findText b.price with
  | Except.error e => Except.error e
  | Except.ok priceText =>
  match stockOf b with
  | Except.error e => Except.error e
  | Except.ok stockQ =>
  match findText b.author with
  | Except.error e => Except.error e
  | Except.ok authorText =>
  match findText b.publisher with
  | Except.error e => Except.error e
  | Except.ok publisherText =>
  match findText b.cover with
  | Except.error e => Except.error e
  | Except.ok coverText =>
  match findText b.pages with
  | Except.error e => Except.error e
  | Except.ok pagesText =>
  match findText b.lang with
  | Except.error e => Except.error e
  | Except.ok langText =>
  match findText b.dimensions with
  | Except.error e => Except.error e
  | Except.ok dimensionsText =>
  match findText b.weight with
  | Except.error e => Except.error e
  | Except.ok weightText =>
  match findText b.pub_date with
  | Except.error e => Except.error e
  | Except.ok pubDateText =>
      Except.ok {
        name := safe_decode titleText
        sku := safe_decode isbnText
        regular_price := safe_decode priceText
        stock_quantity := PyVal.vInt stockQ
        description :=
          match b.longdesc with
          | some t => some (safe_decode t)
          | none => some ""
        short_description :=
          match b.content with
          | some t => safe_decode t
          | none => ""
        categories := cats
        images :=
          match b.thumbnailL with
          | some (some s) => if s.data.isEmpty then [] else [{ src := some (safe_decode (some s)) }]
          | _ => []
        attributes := [
          { name := "Author", options := [some (safe_decode authorText)] },
          { name := "Publisher", options := [some (safe_decode publisherText)] },
          { name := "ISBN", options := [some (safe_decode isbnText)] },
          { name := "Format", options := [some (safe_decode coverText)] },
          { name := "Pages", options := [some (safe_decode pagesText)] },
          { name := "Language", options := [some (safe_decode langText)] },
          { name := "Dimensions", options := [some (safe_decode dimensionsText)] },
          { name := "Weight", options := [some (safe_decode weightText)] },
          { name := "Publication Date", options := [some (safe_decode pubDateText)] }
        ]
        tags :=
          match b.subject with
          | some (some s) =>
              if s.data.isEmpty then []
              else (pySplit ('|') s).map (fun tg => safe_decode (some (pyTrim tg)))
          | _ => []
        dimensions := none
        tax_status := pr.tax_status
        tax_class := pr.tax_class
        manage_stock := pr.manage_stock
        stock_status := pr.stock_status
        shipping_class := pr.shipping_class
        backorders := pr.backorders
      }

/-- The full per-record transformation of the new-stock import: build the
    product dict (src/main.py lines 124-163) and then clean it
    (line 165, validate_and_clean_product_data). -/
def transformBook (pr : Presets) (cats : List Nat) (b : Book) : Except PyError CleanedProduct :=
  match buildRawProduct pr cats b with
  | Except.error e => Except.error e
  | Except.ok raw => validate_and_clean_product_data raw

/-- src/main.py lines 104-113, analyze_products: walk the feed in order,
    read each record key (raising AttributeError when the isbn element is
    absent), and append it to new_products when the key is not in the
    snapshot, to updates otherwise. The snapshot is represented by its
    key list (Python tests dict membership only). -/
def analyze_products (root : List Book) (existing : List String) :
    Except PyError (List String × List String) :=
  match root with
  | [] => Except.ok ([], [])
  | b :: rest =>
      match b.isbn with
      | none => Except.error PyError.attributeError
      | some t =>
          let sku := safe_decode t
          match analyze_products rest existing with
          | Except.error e => Except.error e
          | Except.ok (n, u) =>
              if existing.contains sku then Except.ok (n, sku :: u)
              else Except.ok (sku :: n, u)

/-- The key of each feed record: safe_decode applied to the text of its
    isbn element (meaningful when analyze_products succeeds, i.e. when
    every record has an isbn element). -/
def feedKeys (root : List Book) : List String :=
  root.map (fun b => safe_decode b.isbn.join)

/-- One step of the batch collection loop (src/main.py lines 166-171 and
    212-218): append the record to the current batch, and flush the
    current batch into the batch list once it holds batch_size records. -/
def batchStep (B : Nat) (acc : List (List α) × List α) (r : α) : List (List α) × List α :=
  let cur := acc.2 ++ [r]
  if B ≤ cur.length then (acc.1 ++ [cur], ([] : List α)) else (acc.1, cur)

/-- src/main.py lines 166-175 and 212-224: collect the records into
    batches of batch_size in order, then append the non-empty remainder. -/
def mkBatches (B : Nat) (l : List α) : List (List α) :=
  let s := l.foldl (batchStep B) ([], [])
  if s.2.isEmpty then s.1 else s.1 ++ [s.2]

/-- Whether a remote call outcome is a success. -/
def okBool : Except GatewayError Unit → Bool
  | Except.ok _ => true
  | Except.error _ => false

/-- src/main.py lines 177-190 and 226-238: the batch submission loop,
    starting from index idx (Python enumerates from 1). The outcome of
    the remote call for the batch at index j is given by the oracle
    outcome j. On success the run total grows by the batch length; on
    failure the exception is caught, logged, and the loop continues with
    the next batch. The second component records, in order, each
    attempted batch index with its success flag. -/
def submitBatchesFrom (outcome : Nat → Except GatewayError Unit) (idx : Nat) :
    List (List α) → Nat × List (Nat × Bool)
  | [] => (0, [])
  | b :: rest =>
      let r := submitBatchesFrom outcome (idx + 1) rest
      match outcome idx with
      | Except.ok _ => (b.length + r.1, (idx, true) :: r.2)
      | Except.error _ => (r.1, (idx, false) :: r.2)

/-- The batch submission loop as run by new_stock_import and
    update_stock_and_price (enumeration starts at 1). -/
def submitBatches (outcome : Nat → Except GatewayError Unit) (batches : List (List α)) :
    Nat × List (Nat × Bool) :=
  submitBatchesFrom outcome 1 batches

/-- src/main.py lines 38-40, sanitize_category_name: replace each slash
    by the text " and ", remove backslashes, strip whitespace. -/
def sanitize_category_name (category_name : String) : String :=
  pyTrim ⟨replaceChars ('\\') [] (replaceChars ('/') ((" and ").data) category_name.data)⟩

/-- A category record returned by the remote category search. -/
structure WcCategory where
  name : String
  id : Nat
deriving Repr, DecidableEq

/-- The remote gateway operations that category resolution performs and
    the trace entries the model records for them (unified with the
    product operations used by the GUI process model). -/
inductive WcOp where
  | getProducts (page : Nat)
  | createBatch (size : Nat)
  | updateBatch (size : Nat)
  | searchCategories (name : String)
  | createCategory (name : String)
deriving Repr, DecidableEq

/-- Whether an operation writes to the remote catalog. -/
def WcOp.isWrite : WcOp → Bool
  | WcOp.getProducts _ => false
  | WcOp.searchCategories _ => false
  | WcOp.createBatch _ => true
  | WcOp.updateBatch _ => true
  | WcOp.createCategory _ => true

/-- Whether a trace entry is a remote category search. -/
def WcOp.isCatSearch : WcOp → Bool
  | WcOp.searchCategories _ => true
  | _ => false

/-- Whether a trace entry is a remote category create. -/
def WcOp.isCatCreate : WcOp → Bool
  | WcOp.createCategory _ => true
  | _ => false

/-- The category side of the remote gateway, as an oracle: the response
    (or raised exception) of each call. createCategory yields some id
    when the response dict contains an id key, none otherwise. -/
structure CatGateway where
  getCategories : String → Except GatewayError (List WcCategory)
  createCategory : String → Except GatewayError (Option Nat)

/-- src/main.py lines 42-62, get_or_create_category: sanitize the name,
    search remotely, take the first exact case-insensitive match; when
    there is none, create the category remotely and use the id of the
    response when present. Any gateway exception is caught and yields
    None. The second component is the trace of remote calls made. -/
def get_or_create_category (gw : CatGateway) (category_name : String) :
    Option Nat × List WcOp :=
  let s := sanitize_category_name category_name
  match gw.getCategories s with
  | Except.error _ => (none, [WcOp.searchCategories s])
  | Except.ok cats =>
      match cats.find? (fun c => pyLower c.name == pyLower s) with
      | some c => (some c.id, [WcOp.searchCategories s])
      | none =>
          match gw.createCategory s with
          | Except.ok (some i) => (some i, [WcOp.searchCategories s, WcOp.createCategory s])
          | Except.ok none => (none, [WcOp.searchCategories s, WcOp.createCategory s])
          | Except.error _ => (none, [WcOp.searchCategories s, WcOp.createCategory s])

/-- The condition under which the source creates a category: the remote
    search succeeded and its response holds no exact case-insensitive
    match for the sanitized name (a search that raises is caught and
    creates nothing). -/
def lookupNoMatch (gw : CatGateway) (s : String) : Bool :=
  match gw.getCategories s with
  | Except.ok cats => (cats.find? (fun c => pyLower c.name == pyLower s)).isNone
  | Except.error _ => false

/-- src/main.py lines 127-133: resolve, in order, each category name of
    the run (each element of a multicat split, already one name per
    entry); each name is stripped, safe-decoded and resolved through
    get_or_create_category; names that fail to resolve are dropped. The
    second component is the run trace of remote category calls. -/
def resolveCategories (gw : CatGateway) (names : List String) : List Nat × List WcOp :=
  match names with
  | [] => ([], [])
  | n :: rest =>
      let r := get_or_create_category gw (safe_decode (some (pyTrim n)))
      let rest1 := resolveCategories gw rest
      match r.1 with
      | some i => (i :: rest1.1, r.2 ++ rest1.2)
      | none => (rest1.1, r.2 ++ rest1.2)

/-- The parse outcome of the persisted snapshot file
    (src/cache_handler.py): the file may be absent, fail to parse as
    JSON (json.JSONDecodeError), or parse to a dict whose cache_date and
    products keys may each be missing. The products value is the keyed
    snapshot, modelled as a list of (sku, remote id) pairs. -/
structure CacheData where
  cache_date : Option String
  products : Option (List (String × Nat))
deriving Repr, DecidableEq

/-- The state of the cache file on disk. -/
inductive CacheFile where
  | noFile
  | badJson
  | parsed (d : CacheData)
deriving Repr, DecidableEq

/-- Seconds in 31 days, the cache expiration threshold
    (CACHE_EXPIRATION_DAYS = 31 in src/cache_handler.py). -/
def cacheExpirationSeconds : Int := 31 * 86400

/-- src/cache_handler.py lines 11-22, load_cache. Timestamps are seconds;
    fromiso is the datetime.fromisoformat oracle, raising ValueError
    (modelled as Except.error) on an unparseable string. The except
    clause of the source catches only json.JSONDecodeError and KeyError,
    so a ValueError from fromisoformat propagates to the caller. -/
def load_cache (fromiso : String → Except PyError Int) (now : Int) (file : CacheFile) :
    Except PyError (Option (List (String × Nat))) :=
  match file with
  | CacheFile.noFile => Except.ok none
  | CacheFile.badJson => Except.ok none
  | CacheFile.parsed d =>
      match d.cache_date with
      | none => Except.ok none
      | some ds =>
          match fromiso ds with
          | Except.error e => Except.error e
          | Except.ok cacheDate =>
              if now - cacheDate < cacheExpirationSeconds then
                match d.products with
                | some ps => Except.ok (some ps)
                | none => Except.ok none
              else Except.ok none

/-- src/gui.py lines 187-203: the paginated fetch of the existing
    products on a cache miss. The oracle is the stream of successive
    get_products responses, each a page of (sku, id) pairs together with
    the optional X-WP-TotalPages header; an exhausted stream stands for
    a call that returns an empty page. Every iteration performs one
    getProducts call; the loop breaks on an empty page or once the page
    counter reaches the reported page total. -/
def fetchLoop : List (List (String × Nat) × Option Nat) → Nat → List (String × Nat) →
    List (String × Nat) × List WcOp
  | [], page, acc => (acc, [WcOp.getProducts page])
  | (ps, tp) :: rest, page, acc =>
      if ps.isEmpty then (acc, [WcOp.getProducts page])
      else
        let acc2 := acc ++ ps
        match tp with
        | some total =>
            if total ≤ page then (acc2, [WcOp.getProducts page])
            else
              let r := fetchLoop rest (page + 1) acc2
              (r.1, WcOp.getProducts page :: r.2)
        | none =>
            let r := fetchLoop rest (page + 1) acc2
            (r.1, WcOp.getProducts page :: r.2)

/-- The three run modes offered by the GUI. -/
inductive Mode where
  | dryRun
  | newStock
  | updateMode
deriving Repr, DecidableEq

/-- src/gui.py lines 180-261, WooCommerceImporterGUI.process, returning
    the trace of remote catalog operations together with the outcome of
    the run (the catch-all except at line 256 receives any error). The
    feed has already been parsed; the cache file state, the timestamp
    parser and the page responses are oracles. proceedNew and proceedUpd
    are the answers to the two confirmation dialogs. Note that in the
    new-stock and update branches the source calls main.new_stock_import
    and main.update_stock_and_price with a progress_callback keyword
    argument that neither function accepts, so the call itself raises
    TypeError before any import work (or remote write) happens. -/
def process (mode : Mode) (fromiso : String → Except PyError Int) (now : Int)
    (cacheFile : CacheFile) (pages : List (List (String × Nat) × Option Nat))
    (feed : List Book) (proceedNew proceedUpd : Bool) :
    List WcOp × Except PyError Unit :=
  match load_cache fromiso now cacheFile with
  | Except.error e => ([], Except.error e)
  | Except.ok cached =>
      let fetched :=
        match cached with
        | some ps => (ps, ([] : List WcOp))
        | none => fetchLoop pages 1 []
      match analyze_products feed (fetched.1.map (fun p => p.1)) with
      | Except.error e => (fetched.2, Except.error e)
      | Except.ok (newSkus, updSkus) =>
          match mode with
          | Mode.dryRun => (fetched.2, Except.ok ())
          | Mode.newStock =>
              if newSkus.isEmpty then (fetched.2, Except.ok ())
              else if proceedNew then (fetched.2, Except.error PyError.typeError)
              else (fetched.2, Except.ok ())
          | Mode.updateMode =>
              if updSkus.isEmpty then (fetched.2, Except.ok ())
              else if proceedUpd then (fetched.2, Except.error PyError.typeError)
              else (fetched.2, Except.ok ())

/-- A feed record with every child element present and well formed. -/
def bookBase : Book := {
  isbn := some (some "9780306406157")
  title := some (some "A Title")
  price := some (some "9.99")
  stock := some (some "4")
  longdesc := some (some "A long description")
  content := some (some "A short description")
  multicat := some (some "Fiction")
  thumbnailL := some (some "http://img.example/cover.jpg")
  author := some (some "An Author")
  publisher := some (some "A Publisher")
  cover := some (some "Paperback")
  pages := some (some "120")
  lang := some (some "en")
  dimensions := some (some "10 x 5 x 2")
  weight := some (some "300")
  pub_date := some (some "2020-01-01")
  subject := some (some "Subject One|Subject Two")
}

/-- A concrete preset configuration. -/
def presets0 : Presets := {
  tax_status := "taxable"
  tax_class := ""
  manage_stock := true
  stock_status := "instock"
  shipping_class := ""
  backorders := "no"
}

/-- A small product dict used to exercise validate_and_clean_product_data
    directly. -/
def pBase : ProductData := {
  name := "A Title"
  sku := "9780306406157"
  regular_price := "9.99"
  stock_quantity := PyVal.vInt 4
  description := some ""
  short_description := ""
  categories := []
  images := []
  attributes := []
  tags := []
  dimensions := none
  tax_status := "taxable"
  tax_class := ""
  manage_stock := true
  stock_status := "instock"
  shipping_class := ""
  backorders := "no"
}

/-- A datetime.fromisoformat oracle: parses one known timestamp string to
    epoch second 0 and raises ValueError on everything else. -/
def isoOracle : String → Except PyError Int :=
  fun s => if s = "2025-01-01T00:00:00" then Except.ok 0 else Except.error PyError.valueError

/-- A category gateway whose search always returns the category named
    Fiction with id 7, and whose create returns id 99. -/
def gwFiction : CatGateway := {
  getCategories := fun _ => Except.ok [{ name := "Fiction", id := 7 }]
  createCategory := fun _ => Except.ok (some 99)
}

/-- Claim C2. The transformation is not total: a record whose price
    element is missing makes it raise AttributeError (instead of the
    missing price defaulting to the zero-price string), a record whose
    stock text is "N/A" makes it raise ValueError, and a record whose
    stock text is "-5" is transformed without error to a product whose
    stock quantity is -5, violating the claimed stock quantity ≥ 0. -/
theorem transform_not_total_bug :
    transformBook presets0 [] { bookBase with price := none } =
      Except.error PyError.attributeError
    ∧ transformBook presets0 [] { bookBase with stock := some (some "N/A") } =
      Except.error PyError.valueError
    ∧ (transformBook presets0 [] { bookBase with stock := some (some "-5") }).map
        (fun c => c.stock_quantity) = Except.ok (-5) :=
  ⟨rfl, rfl, rfl⟩

/-- Claim C3. Stock parse failure does raise: on a record whose stock
    element text is "N/A", the transformation raises ValueError from the
    int() call at src/main.py line 140, before the defaulting guard of
    validate_and_clean_product_data (lines 77-80) can run; that guard in
    isolation does default the same unparseable text to 0, which shows
    the defaulting intent that line 140 defeats. -/
theorem stock_parse_failure_raises_bug :
    transformBook presets0 [] { bookBase with stock := some (some "N/A") } =
      Except.error PyError.valueError
    ∧ (validate_and_clean_product_data { pBase with stock_quantity := PyVal.vStr "N/A" }).map
        (fun c => c.stock_quantity) = Except.ok 0
    ∧ (validate_and_clean_product_data { pBase with stock_quantity := PyVal.vNone }).map
        (fun c => c.stock_quantity) = Except.ok 0 :=
  ⟨rfl, rfl, rfl⟩

/-- Claim C4, counterexample. A product whose dimensions string is
    "10/5/2" is three slash-delimited components, so the claim requires
    dimensions {length 10, width 5, height 2}; the code splits on the
    letter x only, obtains one component, and stores an empty dimensions
    dict (the key is also not omitted, contrary to the claim wording). -/
theorem dimensions_slash_counterexample :
    (validate_and_clean_product_data { pBase with dimensions := some "10/5/2" }).map
      (fun c => c.dimensions) = Except.ok DimsOut.emptyDict
    ∧ DimsOut.emptyDict ≠ DimsOut.dims "10" "5" "2"
    ∧ DimsOut.emptyDict ≠ DimsOut.absent :=
  ⟨rfl, by decide, by decide⟩

/-- Claim C7. load_cache treats a missing file, malformed JSON, missing
    keys and an expired timestamp (40 days, beyond the 31-day threshold)
    as absent, but an unparseable cache_date raises ValueError to the
    caller: datetime.fromisoformat is inside the try block whose except
    clause catches only json.JSONDecodeError and KeyError. -/
theorem load_cache_timestamp_bug :
    load_cache isoOracle 100 (CacheFile.parsed { cache_date := some "not-a-date", products := some [] }) =
      Except.error PyError.valueError
    ∧ load_cache isoOracle (40 * 86400) (CacheFile.parsed { cache_date := some "2025-01-01T00:00:00", products := some [("A", 1)] }) =
      Except.ok none
    ∧ load_cache isoOracle 100 CacheFile.badJson = Except.ok none
    ∧ load_cache isoOracle 100 CacheFile.noFile = Except.ok none
    ∧ load_cache isoOracle 100 (CacheFile.parsed { cache_date := none, products := some [] }) =
      Except.ok none
    ∧ load_cache isoOracle 100 (CacheFile.parsed { cache_date := some "2025-01-01T00:00:00", products := none }) =
      Except.ok none
    ∧ load_cache isoOracle 100 (CacheFile.parsed { cache_date := some "2025-01-01T00:00:00", products := some [("A", 5)] }) =
      Except.ok (some [("A", 5)]) :=
  ⟨rfl, rfl, rfl, rfl, rfl, rfl, rfl⟩

/-- Claim C8, counterexample. Two occurrences of the category name
    Fiction in one run: the claim requires the second resolution to be
    answered from a per-run mapping with no further remote lookup (one
    search in the trace); the code has no such mapping and performs a
    remote search for every occurrence, so the trace holds two searches
    for the same sanitized name. -/
theorem category_lookup_counterexample :
    resolveCategories gwFiction ["Fiction", "Fiction"] =
      ([7, 7], [WcOp.searchCategories "Fiction", WcOp.searchCategories "Fiction"])
    ∧ ((resolveCategories gwFiction ["Fiction", "Fiction"]).2.filter WcOp.isCatSearch).length = 2 :=
  ⟨rfl, rfl⟩

/-- Membership characterization of analyze_products: when classification
    completes, a key is in the NEW list exactly when it is a feed key
    absent from the snapshot, and in the EXISTING list exactly when it is
    a feed key present in the snapshot. -/
theorem analyze_mem (root : List Book) (existing : List String) (n u : List String)
    (h : analyze_products root existing = Except.ok (n, u)) (k : String) :
    (k ∈ n ↔ k ∈ feedKeys root ∧ k ∉ existing)
    ∧ (k ∈ u ↔ k ∈ feedKeys root ∧ k ∈ existing) := by
  induction root generalizing n u with
  | nil =>
    simp only [analyze_products, Except.ok.injEq, Prod.mk.injEq] at h
    obtain ⟨hn, hu⟩ := h
    subst hn; subst hu
    simp [feedKeys]
  | cons b rest ih =>
    rw [analyze_products] at h
    cases hb : b.isbn with
    | none => rw [hb] at h; simp at h
    | some t =>
      rw [hb] at h
      cases hr : analyze_products rest existing with
      | error e => rw [hr] at h; simp at h
      | ok p =>
        obtain ⟨n1, u1⟩ := p
        rw [hr] at h
        have hrest := ih n1 u1 hr
        have hfk : feedKeys (b :: rest) = safe_decode t :: feedKeys rest := by
          simp [feedKeys, hb, Option.join]
        cases hc : existing.contains (safe_decode t) with
        | true =>
          have hmem : safe_decode t ∈ existing := by
            rw [List.contains] at hc
            exact List.elem_iff.mp hc
          simp only [hc, if_true, Except.ok.injEq, Prod.mk.injEq] at h
          obtain ⟨hn, hu⟩ := h
          subst hn; subst hu
          rw [hfk]
          constructor
          · rw [hrest.1, List.mem_cons]
            constructor
            · rintro ⟨h1, h2⟩; exact ⟨Or.inr h1, h2⟩
            · rintro ⟨h1 | h1, h2⟩
              · exact absurd (h1 ▸ hmem) h2
              · exact ⟨h1, h2⟩
          · rw [List.mem_cons, hrest.2, List.mem_cons]
            constructor
            · rintro (h1 | ⟨h1, h2⟩)
              · exact ⟨Or.inl h1, h1 ▸ hmem⟩
              · exact ⟨Or.inr h1, h2⟩
            · rintro ⟨h1 | h1, h2⟩
              · exact Or.inl h1
              · exact Or.inr ⟨h1, h2⟩
        | false =>
          have hmem : safe_decode t ∉ existing := by
            intro hx
            rw [List.contains] at hc
            rw [List.elem_eq_true_of_mem hx] at hc
            exact Bool.noConfusion hc
          simp only [hc, Bool.false_eq_true, if_false, Except.ok.injEq, Prod.mk.injEq] at h
          obtain ⟨hn, hu⟩ := h
          subst hn; subst hu
          rw [hfk]
          constructor
          · rw [List.mem_cons, hrest.1, List.mem_cons]
            constructor
            · rintro (h1 | ⟨h1, h2⟩)
              · exact ⟨Or.inl h1, h1 ▸ hmem⟩
              · exact ⟨Or.inr h1, h2⟩
            · rintro ⟨h1 | h1, h2⟩
              · exact Or.inl h1
              · exact Or.inr ⟨h1, h2⟩
          · rw [hrest.2, List.mem_cons]
            constructor
            · rintro ⟨h1, h2⟩; exact ⟨Or.inr h1, h2⟩
            · rintro ⟨h1 | h1, h2⟩
              · exact absurd (h1 ▸ h2) hmem
              · exact ⟨h1, h2⟩

/-- Claim C1. When classification completes, every feed key lands in
    exactly one of the two result lists: keys absent from the snapshot in
    NEW and not EXISTING, keys present in the snapshot in EXISTING and
    not NEW, and no feed key in neither. -/
theorem analyze_products_classifies (root : List Book) (existing : List String)
    (n u : List String) (h : analyze_products root existing = Except.ok (n, u)) (k : String) :
    (k ∈ n ↔ k ∈ feedKeys root ∧ k ∉ existing)
    ∧ (k ∈ u ↔ k ∈ feedKeys root ∧ k ∈ existing)
    ∧ ¬(k ∈ n ∧ k ∈ u)
    ∧ (k ∈ feedKeys root → k ∈ n ∨ k ∈ u) := by
  obtain ⟨h1, h2⟩ := analyze_mem root existing n u h k
  refine ⟨h1, h2, ?_, ?_⟩
  · rintro ⟨hn, hu⟩
    exact ((h1.mp hn).2) ((h2.mp hu).2)
  · intro hk
    by_cases he : k ∈ existing
    · exact Or.inr (h2.mpr ⟨hk, he⟩)
    · exact Or.inl (h1.mpr ⟨hk, he⟩)

/-- The scenario feed of the spec: three records with keys A, B, C. -/
def feedW : List Book :=
  [{ bookBase with isbn := some (some "A") },
   { bookBase with isbn := some (some "B") },
   { bookBase with isbn := some (some "C") }]

/-- Witness for claim C1 on the spec scenario: feed keys {A, B, C} and a
    snapshot holding only A classify as NEW = [B, C], EXISTING = [A];
    the classification properties are checked at the key B. -/
theorem analyze_products_classifies_witness :
    analyze_products feedW ["A"] = Except.ok (["B", "C"], ["A"])
    ∧ ((("B" : String) ∈ (["B", "C"] : List String) ↔ "B" ∈ feedKeys feedW ∧ ("B" : String) ∉ (["A"] : List String))
    ∧ (("B" : String) ∈ (["A"] : List String) ↔ "B" ∈ feedKeys feedW ∧ ("B" : String) ∈ (["A"] : List String))
    ∧ ¬(("B" : String) ∈ (["B", "C"] : List String) ∧ ("B" : String) ∈ (["A"] : List String))
    ∧ ("B" ∈ feedKeys feedW → ("B" : String) ∈ (["B", "C"] : List String) ∨ ("B" : String) ∈ (["A"] : List String))) :=
  ⟨rfl, analyze_products_classifies feedW ["A"] ["B", "C"] ["A"] rfl "B"⟩


/-- Invariant of the batch collection fold: the flushed batches plus the
    current batch always hold exactly the records seen so far, the
    current batch stays below the batch size, and every flushed batch not
    inherited from the start state has exactly the batch size. -/
theorem mkBatches_fold_invariant (B : Nat) (l : List α) :
    ∀ (done : List (List α)) (cur : List α), cur.length < B →
      ((l.foldl (batchStep B) (done, cur)).1.flatten ++ (l.foldl (batchStep B) (done, cur)).2
         = done.flatten ++ cur ++ l)
      ∧ (l.foldl (batchStep B) (done, cur)).2.length < B
      ∧ (∀ b ∈ (l.foldl (batchStep B) (done, cur)).1, b ∈ done ∨ b.length = B) := by
  induction l with
  | nil =>
    intro done cur hcur
    refine ⟨by simp, by simpa using hcur, ?_⟩
    intro b hb
    exact Or.inl (by simpa using hb)
  | cons r t ih =>
    intro done cur hcur
    rw [List.foldl_cons]
    by_cases hle : B ≤ (cur ++ [r]).length
    · have hstep : batchStep B (done, cur) r = (done ++ [cur ++ [r]], ([] : List α)) := by
        simp only [batchStep, if_pos hle]
      rw [hstep]
      have hlen : (cur ++ [r]).length = B := by
        simp only [List.length_append, List.length_singleton] at hle ⊢
        omega
      have h0 : ([] : List α).length < B := by
        simp only [List.length_nil]
        omega
      obtain ⟨i1, i2, i3⟩ := ih (done ++ [cur ++ [r]]) [] h0
      refine ⟨?_, i2, ?_⟩
      · rw [i1]
        simp [List.flatten_append, List.append_assoc]
      · intro b hb
        rcases i3 b hb with hmem | hlenB
        · rcases List.mem_append.mp hmem with hd | hs
          · exact Or.inl hd
          · have hbs : b = cur ++ [r] := by simpa using hs
            exact Or.inr (hbs ▸ hlen)
        · exact Or.inr hlenB
    · have hstep : batchStep B (done, cur) r = (done, cur ++ [r]) := by
        simp only [batchStep, if_neg hle]
      rw [hstep]
      have hlt : (cur ++ [r]).length < B := by
        simp only [List.length_append, List.length_singleton] at hle ⊢
        omega
      obtain ⟨i1, i2, i3⟩ := ih done (cur ++ [r]) hlt
      refine ⟨?_, i2, i3⟩
      rw [i1]
      simp [List.append_assoc]

/-- A list of lists, all of length B, flattens to length count times B. -/
theorem flatten_length_of_all (ls : List (List α)) (B : Nat) (h : ∀ b ∈ ls, b.length = B) :
    ls.flatten.length = ls.length * B := by
  induction ls with
  | nil => simp
  | cons x t ih =>
    simp only [List.flatten_cons, List.length_append, List.length_cons]
    rw [h x (List.mem_cons_self x t), ih (fun b hb => h b (List.mem_cons_of_mem x hb))]
    ring

/-- Claim C5. For any record sequence and batch size B > 0, batch
    construction yields ceil(N/B) batches (written (N + B - 1) / B in
    natural division), concatenating the batches in order reproduces the
    record sequence, and every batch other than possibly the last has
    exactly B records. -/
theorem mkBatches_spec (l : List α) (B : Nat) (hB : 0 < B) :
    (mkBatches B l).flatten = l
    ∧ (mkBatches B l).length = (l.length + B - 1) / B
    ∧ ∀ i, i + 1 < (mkBatches B l).length → ((mkBatches B l).getD i []).length = B := by
  obtain ⟨i1, i2, i3⟩ :=
    mkBatches_fold_invariant B l [] [] (by simpa using hB)
  set s := l.foldl (batchStep B) (([] : List (List α)), ([] : List α)) with hs
  simp only [List.flatten_nil, List.nil_append] at i1
  have hall : ∀ b ∈ s.1, b.length = B := by
    intro b hb
    rcases i3 b hb with h | h
    · simp at h
    · exact h
  have hjoin : s.1.flatten.length = s.1.length * B := flatten_length_of_all _ _ hall
  have hmk : mkBatches B l = if s.2.isEmpty then s.1 else s.1 ++ [s.2] := rfl
  have hgd : ∀ (ls : List (List α)) i, i < ls.length → (∀ b ∈ ls, b.length = B) →
      (ls.getD i []).length = B := by
    intro ls i hi hlb
    rw [List.getD_eq_getElem?_getD, List.getElem?_eq_getElem hi]
    exact hlb _ (List.getElem_mem hi)
  by_cases hemp : s.2.isEmpty
  · have h2 : s.2 = [] := List.isEmpty_iff.mp hemp
    rw [hmk, if_pos hemp]
    have hjl : s.1.flatten = l := by rw [h2] at i1; simpa using i1
    have hlenl : l.length = s.1.length * B := by rw [← hjl]; exact hjoin
    refine ⟨hjl, ?_, ?_⟩
    · rw [hlenl]
      have ha : s.1.length * B + B - 1 = (B - 1) + B * s.1.length := by
        rw [Nat.mul_comm]
        omega
      rw [ha, Nat.add_mul_div_left _ _ hB, Nat.div_eq_of_lt (by omega)]
      omega
    · intro i hi
      exact hgd s.1 i (by omega) hall
  · have h2 : s.2 ≠ [] := fun hx => hemp (by simp [hx])
    have hr1 : 1 ≤ s.2.length := by
      cases hx : s.2 with
      | nil => exact absurd hx h2
      | cons a t => simp
    rw [hmk, if_neg hemp]
    refine ⟨?_, ?_, ?_⟩
    · rw [List.flatten_append]
      simpa using i1
    · have hlenl : l.length = s.1.length * B + s.2.length := by
        rw [← i1, List.length_append, hjoin]
      rw [List.length_append, hlenl]
      have ha : s.1.length * B + s.2.length + B - 1 = (s.2.length + B - 1) + B * s.1.length := by
        rw [Nat.mul_comm]
        omega
      rw [ha, Nat.add_mul_div_left _ _ hB]
      have hone : (s.2.length + B - 1) / B = 1 := by
        apply Nat.div_eq_of_lt_le
        · omega
        · omega
      rw [hone]
      simp [Nat.add_comm]
    · intro i hi
      simp only [List.length_append, List.length_singleton] at hi
      have hilt : i < s.1.length := by omega
      rw [List.getD_eq_getElem?_getD, List.getElem?_append_left hilt,
        ← List.getD_eq_getElem?_getD]
      exact hgd s.1 i hilt hall

/-- Witness for claim C5: five records with batch size two give three
    batches, the first two of size two, concatenating back to the input. -/
theorem mkBatches_spec_witness :
    (0 : Nat) < 2
    ∧ (mkBatches 2 [1, 2, 3, 4, 5]).flatten = [1, 2, 3, 4, 5]
    ∧ (mkBatches 2 [1, 2, 3, 4, 5]).length = (([1, 2, 3, 4, 5] : List Nat).length + 2 - 1) / 2
    ∧ ((mkBatches 2 [1, 2, 3, 4, 5]).getD 0 []).length = 2
    ∧ ((mkBatches 2 [1, 2, 3, 4, 5]).getD 1 []).length = 2 :=
  ⟨by decide,
   (mkBatches_spec [1, 2, 3, 4, 5] 2 (by decide)).1,
   (mkBatches_spec [1, 2, 3, 4, 5] 2 (by decide)).2.1,
   (mkBatches_spec [1, 2, 3, 4, 5] 2 (by decide)).2.2 0 (by decide),
   (mkBatches_spec [1, 2, 3, 4, 5] 2 (by decide)).2.2 1 (by decide)⟩

/-- The attempt record of the submission loop: starting at index idx,
    the loop emits one entry per batch, in order, whose index runs from
    idx and whose flag is the success of the remote call at that index. -/
theorem submitBatchesFrom_snd (outcome : Nat → Except GatewayError Unit) (bs : List (List α)) :
    ∀ idx, (submitBatchesFrom outcome idx bs).2 =
      (List.range' idx bs.length).map (fun j => (j, okBool (outcome j))) := by
  induction bs with
  | nil => intro idx; simp [submitBatchesFrom]
  | cons b t ih =>
    intro idx
    cases ho : outcome idx with
    | ok v => simp [submitBatchesFrom, ho, okBool, List.range'_succ, ih]
    | error e => simp [submitBatchesFrom, ho, okBool, List.range'_succ, ih]

/-- Claim C6. For any batch sequence and any batch index i, under two
    remote outcomes that differ at most at i: every batch is attempted
    exactly once, in order, under both (no halt, no retry, and already
    submitted batches are never revisited), and the per-batch result of
    every batch at a position other than i is unchanged. -/
theorem batch_failure_isolation (batches : List (List α)) (i : Nat)
    (o1 o2 : Nat → Except GatewayError Unit)
    (hagree : ∀ j, j ≠ i → o1 j = o2 j) :
    (submitBatches o1 batches).2.map Prod.fst = List.range' 1 batches.length
    ∧ (submitBatches o2 batches).2.map Prod.fst = List.range' 1 batches.length
    ∧ ∀ k, k < batches.length → 1 + k ≠ i →
        (submitBatches o1 batches).2.getD k (0, false) =
        (submitBatches o2 batches).2.getD k (0, false) := by
  refine ⟨?_, ?_, ?_⟩
  · rw [submitBatches, submitBatchesFrom_snd, List.map_map]
    have hcomp : (Prod.fst ∘ fun j => (j, okBool (o1 j))) = id := rfl
    rw [hcomp, List.map_id]
  · rw [submitBatches, submitBatchesFrom_snd, List.map_map]
    have hcomp : (Prod.fst ∘ fun j => (j, okBool (o2 j))) = id := rfl
    rw [hcomp, List.map_id]
  · intro k hk hne
    rw [submitBatches, submitBatches, submitBatchesFrom_snd, submitBatchesFrom_snd,
      List.getD_eq_getElem?_getD, List.getD_eq_getElem?_getD,
      List.getElem?_map, List.getElem?_map, List.getElem?_range' 1 1 hk]
    have : o1 (1 + k) = o2 (1 + k) := hagree (1 + k) hne
    simp [this]

/-- An outcome oracle failing exactly at batch index 2. -/
def o1W : Nat → Except GatewayError Unit :=
  fun j => if j = 2 then Except.error GatewayError.gatewayError else Except.ok ()

/-- An outcome oracle that always succeeds. -/
def o2W : Nat → Except GatewayError Unit :=
  fun _ => Except.ok ()

/-- Witness for claim C6: three singleton batches where the outcome
    oracle fails exactly at batch 2; all three batches are attempted
    under both oracles and batch 1 is unaffected. -/
theorem batch_failure_isolation_witness :
    (submitBatches o1W [[1], [2], [3]]).2.map Prod.fst = List.range' 1 3
    ∧ (submitBatches o2W [[1], [2], [3]]).2.map Prod.fst = List.range' 1 3
    ∧ (submitBatches o1W [[1], [2], [3]]).2.getD 0 (0, false) =
        (submitBatches o2W [[1], [2], [3]]).2.getD 0 (0, false) := by
  have hag : ∀ j, j ≠ 2 → o1W j = o2W j := by
    intro j hj
    simp [o1W, o2W, hj]
  exact ⟨(batch_failure_isolation [[1], [2], [3]] 2 o1W o2W hag).1,
    (batch_failure_isolation [[1], [2], [3]] 2 o1W o2W hag).2.1,
    (batch_failure_isolation [[1], [2], [3]] 2 o1W o2W hag).2.2 0 (by decide) (by decide)⟩

/-- Claim C4 as amended. For every product carrying a dimensions string,
    the string is split on the letter x only (not on a slash): when that
    split yields exactly three components the result has dimensions
    length/width/height taken from those components (stripped), and when
    it yields any other number of components the dimensions entry is set
    to an empty dict (the key is not omitted), never partially filled. -/
theorem dimensions_amended (p : ProductData) (c : CleanedProduct) (ds : String)
    (h : validate_and_clean_product_data p = Except.ok c) (hd : p.dimensions = some ds) :
    ((pySplit ('x') ds).length = 3
      ∧ c.dimensions = DimsOut.dims (pyTrim ((pySplit ('x') ds).getD 0 ""))
          (pyTrim ((pySplit ('x') ds).getD 1 ""))
          (pyTrim ((pySplit ('x') ds).getD 2 "")))
    ∨ ((pySplit ('x') ds).length ≠ 3 ∧ c.dimensions = DimsOut.emptyDict) := by
  rw [validate_and_clean_product_data] at h
  cases hf : filterAttrs p.attributes with
  | error e => rw [hf] at h; simp at h
  | ok kept =>
    rw [hf] at h
    simp only [Except.ok.injEq] at h
    subst h
    rcases hsplit : pySplit ('x') ds with _ | ⟨a, _ | ⟨b, _ | ⟨c1, _ | ⟨d, rest⟩⟩⟩⟩
    · right
      refine ⟨by simp, ?_⟩
      simp [hd, hsplit]
    · right
      refine ⟨by simp, ?_⟩
      simp [hd, hsplit]
    · right
      refine ⟨by simp, ?_⟩
      simp [hd, hsplit]
    · left
      refine ⟨by simp, ?_⟩
      simp [hd, hsplit]
    · right
      refine ⟨by simp, ?_⟩
      simp [hd, hsplit]

/-- The cleaned product for the dimensions witness. -/
def cDimsW : CleanedProduct := {
  name := "A Title"
  sku := "9780306406157"
  regular_price := "9.99"
  stock_quantity := 4
  description := ""
  short_description := ""
  categories := []
  images := []
  attributes := []
  tags := []
  dimensions := DimsOut.dims "10" "5" "2"
  tax_status := "taxable"
  tax_class := ""
  manage_stock := true
  stock_status := "instock"
  shipping_class := ""
  backorders := "no"
}

/-- Witness for claim C4 as amended, on the spec scenario input
    "10 x 5 x 2": the split has three components and the result has
    dimensions length 10, width 5, height 2. -/
theorem dimensions_amended_witness :
    validate_and_clean_product_data { pBase with dimensions := some "10 x 5 x 2" } =
      Except.ok cDimsW
    ∧ (((pySplit ('x') "10 x 5 x 2").length = 3
       ∧ cDimsW.dimensions = DimsOut.dims (pyTrim ((pySplit ('x') "10 x 5 x 2").getD 0 ""))
           (pyTrim ((pySplit ('x') "10 x 5 x 2").getD 1 ""))
           (pyTrim ((pySplit ('x') "10 x 5 x 2").getD 2 "")))
      ∨ ((pySplit ('x') "10 x 5 x 2").length ≠ 3 ∧ cDimsW.dimensions = DimsOut.emptyDict)) :=
  ⟨rfl, dimensions_amended { pBase with dimensions := some "10 x 5 x 2" } cDimsW "10 x 5 x 2" rfl rfl⟩

/-- Every call of get_or_create_category performs exactly one remote
    category search, on the sanitized name, whatever the gateway does. -/
theorem get_or_create_searches (gw : CatGateway) (name : String) :
    ((get_or_create_category gw name).2).filter WcOp.isCatSearch =
      [WcOp.searchCategories (sanitize_category_name name)] := by
  simp only [get_or_create_category]
  repeat' split
  all_goals simp [WcOp.isCatSearch]

/-- The remote-call trace of the category loop: the head name's calls
    followed by the rest, whether or not the head resolves. -/
theorem resolve_cons_trace (gw : CatGateway) (n : String) (rest : List String) :
    (resolveCategories gw (n :: rest)).2 =
      (get_or_create_category gw (safe_decode (some (pyTrim n)))).2
        ++ (resolveCategories gw rest).2 := by
  rw [resolveCategories]
  cases (get_or_create_category gw (safe_decode (some (pyTrim n)))).1 <;> rfl

/-- The run trace holds exactly one remote search per category-name
    occurrence, in order, on the stripped and sanitized name. -/
theorem resolve_searches (gw : CatGateway) (names : List String) :
    (resolveCategories gw names).2.filter WcOp.isCatSearch =
      names.map (fun n =>
        WcOp.searchCategories (sanitize_category_name (safe_decode (some (pyTrim n))))) := by
  induction names with
  | nil => simp [resolveCategories]
  | cons n rest ih =>
    rw [resolve_cons_trace, List.filter_append, get_or_create_searches, ih, List.map_cons,
      List.singleton_append]

/-- A call of get_or_create_category issues a remote create exactly when
    its lookup succeeded and returned no exact case-insensitive match. -/
theorem get_or_create_creates (gw : CatGateway) (name : String) :
    ((get_or_create_category gw name).2).filter WcOp.isCatCreate =
      (if lookupNoMatch gw (sanitize_category_name name) then
        [WcOp.createCategory (sanitize_category_name name)]
      else []) := by
  simp only [get_or_create_category, lookupNoMatch]
  repeat' split
  all_goals simp_all [WcOp.isCatCreate]

/-- The run trace holds a remote create exactly for those occurrences
    whose lookup succeeded with no exact case-insensitive match. -/
theorem resolve_creates (gw : CatGateway) (names : List String) :
    (resolveCategories gw names).2.filter WcOp.isCatCreate =
      (names.filter (fun n =>
          lookupNoMatch gw (sanitize_category_name (safe_decode (some (pyTrim n)))))).map
        (fun n => WcOp.createCategory (sanitize_category_name (safe_decode (some (pyTrim n))))) := by
  induction names with
  | nil => simp [resolveCategories]
  | cons n rest ih =>
    rw [resolve_cons_trace, List.filter_append, get_or_create_creates, ih, List.filter_cons]
    by_cases hm : lookupNoMatch gw (sanitize_category_name (safe_decode (some (pyTrim n)))) = true
    · simp [hm]
    · simp [hm]

/-- An occurrence whose lookup response holds an exact case-insensitive
    match resolves to the id of the first such match, with a trace of
    one search and no create. -/
theorem get_or_create_exact_match (gw : CatGateway) (name : String) (cats : List WcCategory)
    (c : WcCategory)
    (hg : gw.getCategories (sanitize_category_name name) = Except.ok cats)
    (hf : cats.find? (fun c1 => pyLower c1.name == pyLower (sanitize_category_name name)) = some c) :
    get_or_create_category gw name =
      (some c.id, [WcOp.searchCategories (sanitize_category_name name)]) := by
  simp only [get_or_create_category, hg, hf]

/-- Claim C8 as amended. Category resolution keeps no per-run mapping:
    every occurrence of a category name in a run, including repeated
    occurrences of the same sanitized name, performs its own exact
    case-insensitive remote lookup — the run trace holds exactly one
    remote search per occurrence, in feed order, on the stripped and
    sanitized name; a remote create is issued exactly for those
    occurrences whose successful lookup returned no exact
    case-insensitive match; and an occurrence whose lookup response does
    hold an exact case-insensitive match resolves to the id of the first
    such match, with no create call. -/
theorem category_lookup_amended (gw : CatGateway) (names : List String) :
    ((resolveCategories gw names).2.filter WcOp.isCatSearch =
      names.map (fun n =>
        WcOp.searchCategories (sanitize_category_name (safe_decode (some (pyTrim n))))))
    ∧ ((resolveCategories gw names).2.filter WcOp.isCatCreate =
      (names.filter (fun n =>
          lookupNoMatch gw (sanitize_category_name (safe_decode (some (pyTrim n)))))).map
        (fun n => WcOp.createCategory (sanitize_category_name (safe_decode (some (pyTrim n))))))
    ∧ (∀ name cats c, gw.getCategories (sanitize_category_name name) = Except.ok cats →
        cats.find? (fun c1 => pyLower c1.name == pyLower (sanitize_category_name name)) = some c →
        get_or_create_category gw name =
          (some c.id, [WcOp.searchCategories (sanitize_category_name name)])) :=
  ⟨resolve_searches gw names, resolve_creates gw names,
   fun name cats c hg hf => get_or_create_exact_match gw name cats c hg hf⟩

/-- Witness for claim C8 as amended, on the gateway whose search always
    returns the Fiction category with id 7: the two occurrences of
    Fiction produce two searches and no create, and the single call
    resolves to the exact match id 7 with a one-search trace. -/
theorem category_lookup_amended_witness :
    ((resolveCategories gwFiction ["Fiction", "Fiction"]).2.filter WcOp.isCatSearch =
      ["Fiction", "Fiction"].map (fun n =>
        WcOp.searchCategories (sanitize_category_name (safe_decode (some (pyTrim n))))))
    ∧ ((resolveCategories gwFiction ["Fiction", "Fiction"]).2.filter WcOp.isCatCreate = [])
    ∧ get_or_create_category gwFiction "Fiction" =
        (some 7, [WcOp.searchCategories "Fiction"]) :=
  ⟨(category_lookup_amended gwFiction ["Fiction", "Fiction"]).1,
   (category_lookup_amended gwFiction ["Fiction", "Fiction"]).2.1,
   (category_lookup_amended gwFiction ["Fiction", "Fiction"]).2.2 "Fiction"
     [{ name := "Fiction", id := 7 }] { name := "Fiction", id := 7 } rfl rfl⟩

/-- The paginated snapshot fetch performs read operations only. -/
theorem fetchLoop_ops_reads (pages : List (List (String × Nat) × Option Nat)) :
    ∀ page acc, ((fetchLoop pages page acc).2.all (fun op => !op.isWrite)) = true := by
  induction pages with
  | nil => intro page acc; rfl
  | cons pr rest ih =>
    intro page acc
    obtain ⟨ps, tp⟩ := pr
    rw [fetchLoop]
    repeat' split
    all_goals first
      | (simp [WcOp.isWrite]; done)
      | (simp only [List.all_cons, ih]; rfl)

/-- Claim C9. In dry-run mode, for every feed, cache state and page
    oracle, the run performs classification only and its remote trace
    holds no write: no batch-create, batch-update or category-create
    operation is ever issued. -/
theorem dry_run_no_writes (fromiso : String → Except PyError Int) (now : Int)
    (cacheFile : CacheFile) (pages : List (List (String × Nat) × Option Nat))
    (feed : List Book) (proceedNew proceedUpd : Bool) :
    ((process Mode.dryRun fromiso now cacheFile pages feed proceedNew proceedUpd).1.all
      (fun op => !op.isWrite)) = true := by
  simp only [process]
  repeat' split
  all_goals first
    | rfl
    | simpa using fetchLoop_ops_reads pages 1 []

/-- Claim C10. Every product the new-stock import constructs gives each
    of its nine attributes exactly one option, so the cleaning step's
    attribute filter (which indexes options[0]) never hits an empty
    options list: cleaning such a product always succeeds. -/
theorem attributes_singleton_safe (pr : Presets) (cats : List Nat) (b : Book) :
    ((buildRawProduct pr cats b).toOption.all (fun raw =>
      raw.attributes.all (fun a => a.options.length == 1)
      && (validate_and_clean_product_data raw).isOk)) = true := by
  rw [buildRawProduct]
  repeat' split
  all_goals rfl
